import Mathlib

/-!
# Verification of the Blinkit automation Excel-to-record pipeline

Shallow embedding of the core transformation logic of `app.py`
(`InstamartAutomation`) and `grn.py` (`GRNAutomation`):

* filename metadata extraction (`extract_po_from_filename`,
  `extract_date_from_filename`),
* required-column validation, row validation, totals computation and
  output-record assembly (`process_excel_file`, `process_grn_excel_file`),
* the dedup gate of `process_drive_to_sheet_workflow`.

Strings are modelled on `List Char`; Python's `str.replace`, `str.split`
and `str.strip` are reimplemented here so that every definition is
executable by `decide`.  A pandas cell is `Option String`: `none` models a
NaN/missing value, `some s` the cell content as Python's `str()` would
render it.  Numbers are `Rat` (the source relies on pandas numeric
parsing; `parseNum` models `pd.to_numeric(errors='coerce')` for plain
decimal literals, which is the fragment the claims exercise).
-/

namespace Blinkit

/-- Python `s.replace(pat, '')` on character lists, with explicit fuel
(`fuel` is always instantiated with the length of the list, which suffices
because a successful match consumes at least one character).  Mirrors the
left-to-right, non-overlapping semantics of `str.replace`. -/
def pyReplaceAux (pat : List Char) : Nat → List Char → List Char
  | _, [] => []
  | 0, l => l
  | fuel + 1, c :: rest =>
    if pat ≠ [] ∧ pat.isPrefixOf (c :: rest) then
      pyReplaceAux pat fuel ((c :: rest).drop pat.length)
    else
      c :: pyReplaceAux pat fuel rest

/-- Python `s.replace(pat, '')` (deletion of every occurrence of `pat`). -/
def pyReplace (pat l : List Char) : List Char :=
  pyReplaceAux pat l.length l

/-- Python `s.split(sep)` for a single-character separator. -/
def pySplit (sep : Char) : List Char → List (List Char)
  | [] => [[]]
  | c :: rest =>
    if c = sep then
      [] :: pySplit sep rest
    else
      match pySplit sep rest with
      | [] => [[c]]
      | p :: ps => (c :: p) :: ps

/-- The whitespace characters Python's `str.strip()` removes (restricted to
the ASCII ones, which are the only ones the repository's data can carry). -/
def isPySpace (c : Char) : Bool :=
  c = ' ' ∨ c = '\t' ∨ c = '\n' ∨ c = '\r'

/-- Python `s.strip()` on character lists. -/
def pyStrip (l : List Char) : List Char :=
  ((l.dropWhile isPySpace).reverse.dropWhile isPySpace).reverse

/-- Python `s.strip()` on `String`. -/
def pyStripS (s : String) : String :=
  String.mk (pyStrip s.data)

/-- Reformat `YYYYMMDD` as `YYYY-MM-DD`: the slicing `d[0:4] + '-' + d[4:6] + '-' + d[6:8]`
both extractors perform. -/
def fmtDate (d : List Char) : List Char :=
  d.take 4 ++ '-' :: (d.drop 4).take 2 ++ '-' :: (d.drop 6).take 2

/-- Result of `app.py`'s `extract_po_from_filename`: the returned dict
`{'po_number': …, 'po_date': …}` plus whether the `[WARNING]` log line ran. -/
structure POInfo where
  po_number : String
  po_date : String
  warned : Bool
deriving DecidableEq, Repr

/-- Model of `app.py` `extract_po_from_filename` (lines 410–443):
strip `.xlsx`/`.xls` with `str.replace` (anywhere in the name), split on
`'_'`, and if there are at least two segments and the second has length 8,
reformat it as a date.  Any other shape returns empty strings with a
warning.  The length-8 test is the only check performed on the date
segment (no digit check). -/
def extract_po_from_filename (filename : String) : POInfo :=
  match pySplit '_' (pyReplace ".xls".data (pyReplace ".xlsx".data filename.data)) with
  | p0 :: p1 :: _ =>
    if p1.length = 8 then
      ⟨String.mk p0, String.mk (fmtDate p1), false⟩
    else
      ⟨"", "", true⟩
  | _ => ⟨"", "", true⟩

/-- The case-insensitive extension strip `re.sub(r'\.(xlsx?|xls)$', '', …)`
of `grn.py` (line 392): remove a final `.xlsx` or `.xls`, ignoring case. -/
def grnStripExt (l : List Char) : List Char :=
  if 5 ≤ l.length ∧ (l.drop (l.length - 5)).map Char.toLower = ".xlsx".data then
    l.take (l.length - 5)
  else if 4 ≤ l.length ∧ (l.drop (l.length - 4)).map Char.toLower = ".xls".data then
    l.take (l.length - 4)
  else l

/-- Model of `re.search` with pattern underscore, eight digits, underscore, six digits, end-anchor — `grn.py` line 395:
the name must end in an underscore, eight digits, an underscore and six
digits; on success the eight date digits are returned. -/
def primaryDate (l : List Char) : Option (List Char) :=
  if 16 ≤ l.length then
    if (l.drop (l.length - 16)).take 1 = ['_'] ∧
        (((l.drop (l.length - 16)).drop 1).take 8).all Char.isDigit ∧
        ((l.drop (l.length - 16)).drop 9).take 1 = ['_'] ∧
        (((l.drop (l.length - 16)).drop 10).take 6).all Char.isDigit then
      some (((l.drop (l.length - 16)).drop 1).take 8)
    else none
  else none

/-- Model of `re.search` for eight consecutive digits — `grn.py` line 400: the
leftmost run of eight consecutive digits, if any. -/
def scan8 : List Char → Option (List Char)
  | [] => none
  | c :: rest =>
    if 8 ≤ (c :: rest).length ∧ ((c :: rest).take 8).all Char.isDigit then
      some ((c :: rest).take 8)
    else scan8 rest

/-- Model of `grn.py` `extract_date_from_filename` (lines 386–406).  `today` stands
for `datetime.now().strftime('%Y-%m-%d')`; the boolean records whether the
`[WARNING]` fallback ran. -/
def extract_date_from_filename (today : String) (filename : String) : String × Bool :=
  match primaryDate (grnStripExt filename.data) with
  | some d => (String.mk (fmtDate d), false)
  | none =>
    match scan8 (grnStripExt filename.data) with
    | some d => (String.mk (fmtDate d), false)
    | none => (today, true)

/-- A spreadsheet cell.  `none` models a pandas NaN / missing value,
`some s` the cell content as Python's `str()` renders it. -/
abbrev Cell := Option String

/-- A parsed spreadsheet row: association list from column header to cell
(the duck-typed pandas row accessed with `row.get`). -/
abbrev Row := List (String × Cell)

/-- Python `row.get(col)` — `some c` when the column is present in the row's
index (the cell itself may still be NaN), `none` when it is absent. -/
def rowGet? (r : Row) (col : String) : Option Cell :=
  (r.find? (fun p => decide (p.1 = col))).map Prod.snd

/-- Python `str(v)` on a cell value: `str(float('nan'))` is the string
`"nan"`. -/
def pyStr (c : Cell) : String :=
  match c with
  | none => "nan"
  | some s => s

/-- Python `str(row.get(col, dflt))` for a string default. -/
def cellStrD (r : Row) (col dflt : String) : String :=
  match rowGet? r col with
  | none => dflt
  | some c => pyStr c

/-- Python `str(row.get(col, '')).strip()` — the conversion every record field
goes through. -/
def trimmedField (r : Row) (col : String) : String :=
  pyStripS (cellStrD r col "")

/-- The run configuration `CONFIG['excel_mapping']`: logical field name to
physical spreadsheet header. -/
abbrev Mapping := List (String × String)

/-- Python `excel_mapping.get(field, '')` — the empty string doubles for Python's
falsy `None`/`''` default. -/
def mget (m : Mapping) (f : String) : String :=
  ((m.find? (fun p => decide (p.1 = f))).map Prod.snd).getD ""

/-- Pandas `df.dropna(how='all')`: keep only rows with at least one non-NaN cell. -/
def dropnaAll (t : List Row) : List Row :=
  t.filter (fun r => r.any (fun p => p.2.isSome))

/-- Pandas `pd.to_numeric(v, errors='coerce')` on a string cell, modelled for
plain decimal literals: optional sign, digits, optional fractional part,
surrounded by optional whitespace.  Anything else coerces to `none`
(pandas NaN). -/
def digitsVal (l : List Char) : Nat :=
  l.foldl (fun a c => a * 10 + (c.toNat - 48)) 0

/-- Numeric parse of a decimal literal; see `digitsVal`. -/
def parseNum (s : String) : Option Rat :=
  let l := pyStrip s.data
  let sgn : Bool × List Char :=
    match l with
    | '-' :: r => (true, r)
    | '+' :: r => (false, r)
    | _ => (false, l)
  match pySplit '.' sgn.2 with
  | [ip] =>
    if ip ≠ [] ∧ ip.all Char.isDigit then
      some (cond sgn.1 (-(digitsVal ip : Rat)) (digitsVal ip : Rat))
    else none
  | [ip, fp] =>
    if (ip ≠ [] ∨ fp ≠ []) ∧ ip.all Char.isDigit ∧ fp.all Char.isDigit then
      let v : Rat := (digitsVal ip : Rat) + (digitsVal fp : Rat) / (10 : Rat) ^ fp.length
      some (cond sgn.1 (-v) v)
    else none
  | _ => none

/-- One summand of the totals loop of `app.py` (lines 555–571):
`pd.to_numeric(row.get(col, 0), errors='coerce')`, with NaN results
skipped (`if not pd.isna(val)`), so a missing column contributes the
default `0`, a NaN cell contributes `0`, and an unparsable string
contributes `0`. -/
def numContribution (r : Row) (col : String) : Rat :=
  match rowGet? r col with
  | none => 0
  | some none => 0
  | some (some s) => (parseNum s).getD 0

/-- The running total of the loop `for row in valid_rows: total += val`. -/
def sumCol (col : String) (rows : List Row) : Rat :=
  rows.foldl (fun acc r => acc + numContribution r col) 0

/-- One value of an output record: the Python dict holds strings for the
row-sourced fields, an int for `total_items_in_po` and numbers for the
two sums. -/
inductive FieldVal where
  | str : String → FieldVal
  | nat : Nat → FieldVal
  | num : Rat → FieldVal
deriving DecidableEq, Repr

/-- Field lookup in an output record. -/
def recGet (rec : List (String × FieldVal)) (f : String) : Option FieldVal :=
  (rec.find? (fun p => decide (p.1 = f))).map Prod.snd

/-- Result of processing one document: the returned record list plus the
diagnostics the source logs (the missing-columns ERROR list and the
WARNING lines). -/
structure FileResult where
  records : List (List (String × FieldVal))
  missing_columns : List String
  warnings : List String
deriving DecidableEq, Repr

/-- The required-columns check shared by both scripts
(`app.py` 518–525, `grn.py` 435–437): collect the mapped header of every
required logical field that is mapped to a truthy header absent from the
parsed columns. -/
def missingColumnsFor (req : List String) (m : Mapping) (headers : List String) : List String :=
  (req.filter (fun f => mget m f ≠ "" ∧ ¬ (mget m f ∈ headers))).map (mget m)

/-- The `required_fields` list of `app.py` (line 519). -/
def requiredFieldsPO : List String := ["product_number", "product_name"]

/-- The row filter of `app.py` (lines 536–542): the row survives iff
`product_num` is present and not NaN and its stripped string form is not
one of the four exact tokens `''`, `'nan'`, `'NaN'`, `'NAN'`. -/
def validRowApp (m : Mapping) (r : Row) : Bool :=
  match rowGet? r (mget m "product_number") with
  | some (some s) => ¬ (pyStripS s ∈ (["", "nan", "NaN", "NAN"] : List String))
  | _ => false

/-- STEP 3 of `app.py` (lines 578–603): assemble one output dict from a
valid row, the filename metadata, and the document-level totals. -/
def buildPORecord (filename : String) (po : POInfo) (m : Mapping)
    (ti : Nat) (tq ta : Rat) (r : Row) : List (String × FieldVal) :=
  [("po_number", .str po.po_number),
   ("po_date", .str po.po_date),
   ("product_number", .str (trimmedField r (mget m "product_number"))),
   ("product_name", .str (trimmedField r (mget m "product_name"))),
   ("quantity_ordered", .str (trimmedField r (mget m "quantity_ordered"))),
   ("price_per_unit", .str (trimmedField r (mget m "price_per_unit"))),
   ("mrp", .str (trimmedField r (mget m "mrp"))),
   ("base_price", .str (trimmedField r (mget m "base_price"))),
   ("amount_per_line_amount", .str (trimmedField r (mget m "amount_per_line_amount"))),
   ("total_items_in_po", .nat ti),
   ("total_quantity_in_po", .num tq),
   ("total_amount_of_po", .num ta),
   ("source_file", .str filename)]

/-- Model of `app.py` `process_excel_file` (lines 493–612), acting on the parsed
table (`headers` models `df.columns`, `table` the rows). -/
def process_excel_file (filename : String) (m : Mapping)
    (headers : List String) (table : List Row) : FileResult :=
  let po := extract_po_from_filename filename
  let df := dropnaAll table
  let missing := missingColumnsFor requiredFieldsPO m headers
  if missing ≠ [] then
    ⟨[], missing, []⟩
  else
    let valid := df.filter (validRowApp m)
    if valid = [] then
      ⟨[], [], ["No valid line items found in " ++ filename]⟩
    else
      let ti := valid.length
      let tq := sumCol (mget m "quantity_ordered") valid
      let ta := sumCol (mget m "amount_per_line_amount") valid
      ⟨valid.map (buildPORecord filename po m ti tq ta), [], []⟩

/-- The `CONFIG` excel mapping of `app.py`. -/
def appMapping : Mapping :=
  [("product_number", "Item Code"),
   ("product_name", "Product Description"),
   ("quantity_ordered", "Quantity"),
   ("item_count", "Total Items"),
   ("PO Total Quantity", "Total Quantity"),
   ("PO Total Amount", "Total Amount"),
   ("price_per_unit", "Basic Cost Price"),
   ("mrp", "MRP"),
   ("base_price", "Landing Rate"),
   ("amount_per_line_amount", "Total Amount"),
   ("total_items_in_po", "Total Items in PO"),
   ("total_quantity_in_po", "Total Quantity in PO"),
   ("total_amount_of_po", "Total Amount of PO")]

/-- The whole-cell token replacement of `grn.py` (line 429):
`df.replace({'nan': '', 'NaN': '', 'None': ''})` — exact, case-sensitive,
whole-value matches only; NaN cells are untouched. -/
def replaceCell (c : Cell) : Cell :=
  c.map (fun s => if s = "nan" ∨ s = "NaN" ∨ s = "None" then "" else s)

/-- The replacement `df.replace` lifted to the whole table. -/
def replaceTokens (t : List Row) : List Row :=
  t.map (fun r => r.map (fun p => (p.1, replaceCell p.2)))

/-- The `required_fields` list of `grn.py` (line 435). -/
def requiredFieldsGRN : List String := ["item_code", "product_description", "po_number"]

/-- The row filter of `grn.py` (lines 443–445): keep rows whose item-code
cell is present, not NaN, and whose stripped string form is neither `''`
nor `'nan'` (exact, case-sensitive — the file was already run through
`replaceTokens`). -/
def validRowGrn (itemCol : String) (r : Row) : Bool :=
  match rowGet? r itemCol with
  | some (some s) => ¬ (pyStripS s ∈ (["", "nan"] : List String))
  | _ => false

/-- The output dict of `grn.py` (lines 459–480): fifteen pass-through
fields; no aggregate field of any kind is attached. -/
def buildGRNRecord (filename received_date : String) (m : Mapping)
    (r : Row) : List (String × FieldVal) :=
  [("grn_number", .str (trimmedField r (mget m "po_number"))),
   ("received_date", .str received_date),
   ("item_code", .str (trimmedField r (mget m "item_code"))),
   ("product_upc", .str (trimmedField r (mget m "product_upc"))),
   ("product_description", .str (trimmedField r (mget m "product_description"))),
   ("mrp", .str (trimmedField r (mget m "mrp"))),
   ("tax_amount", .str (trimmedField r (mget m "tax_amount"))),
   ("landing_rate_po", .str (trimmedField r (mget m "landing_rate_po"))),
   ("landing_rate_grn", .str (trimmedField r (mget m "landing_rate_grn"))),
   ("quantity_po", .str (trimmedField r (mget m "quantity_po"))),
   ("quantity_grn", .str (trimmedField r (mget m "quantity_grn"))),
   ("fill_rate", .str (trimmedField r (mget m "fill_rate"))),
   ("total_grn_amount", .str (trimmedField r (mget m "total_grn_amount"))),
   ("gmv_loss", .str (trimmedField r (mget m "gmv_loss"))),
   ("source_file", .str filename)]

/-- The field names of a GRN output record, in order. -/
def grnFieldNames : List String :=
  ["grn_number", "received_date", "item_code", "product_upc",
   "product_description", "mrp", "tax_amount", "landing_rate_po",
   "landing_rate_grn", "quantity_po", "quantity_grn", "fill_rate",
   "total_grn_amount", "gmv_loss", "source_file"]

/-- Model of `grn.py` `process_grn_excel_file` (lines 408–489).  `today` feeds the
date extractor's final fallback.  The source's "Calculate per-GRN totals"
section (lines 451–454) only logs the number of distinct keys, so the
embedding has nothing to compute there. -/
def process_grn_excel_file (today filename : String) (m : Mapping)
    (headers : List String) (table : List Row) : FileResult :=
  let received := (extract_date_from_filename today filename).1
  let df := replaceTokens (dropnaAll table)
  let missing := missingColumnsFor requiredFieldsGRN m headers
  if missing ≠ [] then
    ⟨[], missing, []⟩
  else
    let valid := df.filter (validRowGrn (mget m "item_code"))
    if valid = [] then
      ⟨[], [], ["No valid line items found in " ++ filename]⟩
    else
      ⟨valid.map (buildGRNRecord filename received m), [], []⟩

/-- The `CONFIG` excel mapping of `grn.py`. -/
def grnMapping : Mapping :=
  [("item_code", "Item Code"),
   ("po_number", "po_number"),
   ("product_upc", "Product UPC"),
   ("product_description", "Product Description"),
   ("mrp", "MRP"),
   ("tax_amount", "Tax Amount"),
   ("landing_rate_po", "Landing Rate - PO"),
   ("landing_rate_grn", "Landing Rate - GRN"),
   ("quantity_po", "Quantity - PO"),
   ("quantity_grn", "Quantity - GRN"),
   ("fill_rate", "Fill rate (%)"),
   ("total_grn_amount", "Total GRN Amount"),
   ("gmv_loss", "GMV Loss")]

/-- A discovered Drive file, as far as the dedup gate looks at it. -/
structure DriveFile where
  id : String
  name : String
deriving DecidableEq, Repr

/-- The dedup gate of both `process_drive_to_sheet_workflow`s
(`app.py` 730–733, `grn.py` 611–614):
`[f for f in excel_files if f['name'] not in existing_files]`.  The
existing-identifier snapshot is modelled as a list (the Python set's
membership test is all that is used). -/
def dedupGate (existing : List String) (files : List DriveFile) : List DriveFile :=
  files.filter (fun f => ¬ (f.name ∈ existing))

/-! ## Support lemmas -/

theorem pyReplaceAux_zero (pat l) : pyReplaceAux pat 0 l = l := by
  cases l <;> rfl

theorem pyReplaceAux_append (pat a b : List Char) (f : Nat)
    (hpat : pat.head? = some '.') (ha : ∀ c ∈ a, c ≠ '.') :
    pyReplaceAux pat f (a ++ b) = a ++ pyReplaceAux pat (f - a.length) b := by
  induction a generalizing f with
  | nil => simp
  | cons c a' ih =>
    obtain ⟨pt, rfl⟩ : ∃ pt, pat = '.' :: pt := by
      cases pat with
      | nil => simp at hpat
      | cons p pt =>
        refine ⟨pt, ?_⟩
        have hp : p = '.' := by simpa using hpat
        rw [hp]
    have hc : c ≠ '.' := ha c (by simp)
    cases f with
    | zero =>
      rw [pyReplaceAux_zero, Nat.zero_sub, pyReplaceAux_zero]
    | succ f' =>
      have hbeq : (('.' : Char) == c) = false := beq_eq_false_iff_ne.mpr (Ne.symm hc)
      have hpre : (('.' :: pt).isPrefixOf (c :: (a' ++ b))) = false := by
        show (('.' == c) && pt.isPrefixOf (a' ++ b)) = false
        rw [hbeq]
        rfl
      show pyReplaceAux ('.' :: pt) (f' + 1) (c :: (a' ++ b)) = _
      rw [pyReplaceAux]
      rw [if_neg (by simp [hpre])]
      rw [ih f' (fun x hx => ha x (by simp [hx]))]
      simp [Nat.succ_sub_succ]

theorem pyReplace_append (pat a b : List Char)
    (hpat : pat.head? = some '.') (ha : ∀ c ∈ a, c ≠ '.') :
    pyReplace pat (a ++ b) = a ++ pyReplace pat b := by
  unfold pyReplace
  rw [pyReplaceAux_append pat a b _ hpat ha]
  congr 2
  simp

theorem pySplit_append (sep : Char) (a b : List Char) (ha : sep ∉ a) :
    pySplit sep (a ++ sep :: b) = a :: pySplit sep b := by
  induction a with
  | nil => simp [pySplit]
  | cons c a' ih =>
    have hc : ¬ (c = sep) := fun h => ha (by simp [h])
    have ih' := ih (fun h => ha (by simp [h]))
    show pySplit sep (c :: (a' ++ sep :: b)) = _
    rw [pySplit, if_neg hc, ih']

theorem digit_ne_dot {c : Char} (h : c.isDigit = true) : c ≠ '.' := by
  intro rfl_h
  subst rfl_h
  simp [Char.isDigit] at h

theorem scan8_some_run {l : List Char} {d : List Char} (h : scan8 l = some d) :
    ∃ i < l.length, 8 ≤ (l.drop i).length ∧ ((l.drop i).take 8).all Char.isDigit := by
  induction l with
  | nil => simp [scan8] at h
  | cons c rest ih =>
    rw [scan8] at h
    split at h
    · next hcond =>
      exact ⟨0, by simp, by simpa using hcond⟩
    · obtain ⟨i, hi, h8, hd⟩ := ih h
      exact ⟨i + 1, by simpa using hi, by simpa using h8, by simpa using hd⟩

theorem primaryDate_some_run {l : List Char} {d : List Char} (h : primaryDate l = some d) :
    ∃ i < l.length, 8 ≤ (l.drop i).length ∧ ((l.drop i).take 8).all Char.isDigit := by
  rw [primaryDate] at h
  split at h
  · next h16 =>
    split at h
    · next hcond =>
      refine ⟨l.length - 15, by omega, ?_, ?_⟩
      · simp only [List.length_drop]
        omega
      · have : (l.drop (l.length - 16)).drop 1 = l.drop (l.length - 15) := by
          rw [List.drop_drop]
          congr 1
          omega
        rw [← this]
        exact hcond.2.1
    · exact absurd h (by simp)
  · exact absurd h (by simp)

/-- Lemma: `sumCol` as a map-sum: the totals loop accumulates exactly the sum of
the per-row contributions. -/
theorem sumCol_eq_sum (col : String) (l : List Row) :
    sumCol col l = (l.map (fun r => numContribution r col)).sum := by
  have aux : ∀ (l : List Row) (acc : Rat),
      l.foldl (fun a r => a + numContribution r col) acc =
        acc + (l.map (fun r => numContribution r col)).sum := by
    intro l
    induction l with
    | nil => intro acc; simp
    | cons r l' ih => intro acc; simp [ih, add_assoc]
  simpa using aux l 0

theorem validRowApp_iff (m : Mapping) (r : Row) :
    validRowApp m r = true ↔
      ∃ s, rowGet? r (mget m "product_number") = some (some s) ∧
        pyStripS s ∉ (["", "nan", "NaN", "NAN"] : List String) := by
  unfold validRowApp
  rcases h : rowGet? r (mget m "product_number") with _ | ⟨_ | s⟩ <;> simp [h]

theorem validRowGrn_iff (col : String) (r : Row) :
    validRowGrn col r = true ↔
      ∃ s, rowGet? r col = some (some s) ∧
        pyStripS s ∉ (["", "nan"] : List String) := by
  unfold validRowGrn
  rcases h : rowGet? r col with _ | ⟨_ | s⟩ <;> simp [h]

/-! ## Claims -/

/-- A keyed GRN document whose group-key column (`po_number`) holds the
values `A, A, B` over three valid rows. -/
def grnTableAAB : List Row :=
  [[("Item Code", some "I1"), ("po_number", some "A"), ("Product Description", some "P1")],
   [("Item Code", some "I2"), ("po_number", some "A"), ("Product Description", some "P2")],
   [("Item Code", some "I3"), ("po_number", some "B"), ("Product Description", some "P3")]]

/-- The headers of `grnTableAAB`. -/
def grnHeadersAAB : List String := ["Item Code", "po_number", "Product Description"]

/-- C1: on a keyed document with group-key values `A, A, B`,
`process_grn_excel_file` emits three records that consist of exactly the
fifteen pass-through fields of `grnFieldNames` — no count, quantity-sum or
amount-sum field of any group is computed or attached, contrary to the
function's own docstring ("Totals … are calculated PER GRN number"). -/
theorem grn_keyed_records_carry_no_aggregates :
    (process_grn_excel_file "2026-10-12" "Consolidated-GRN-Report_20260211_030533.xlsx"
        grnMapping grnHeadersAAB grnTableAAB).records.map (fun rec => rec.map Prod.fst) =
      [grnFieldNames, grnFieldNames, grnFieldNames] ∧
    (process_grn_excel_file "2026-10-12" "Consolidated-GRN-Report_20260211_030533.xlsx"
        grnMapping grnHeadersAAB grnTableAAB).records.map (fun rec => recGet rec "grn_number") =
      [some (.str "A"), some (.str "A"), some (.str "B")] ∧
    grnFieldNames.all (fun f =>
      ¬ (f ∈ ["count", "sum_quantity", "sum_amount", "total_items", "total_quantity",
              "total_amount", "total_items_in_po", "total_quantity_in_po",
              "total_amount_of_po"])) = true := by
  decide

/-- C2 counterexample: `"X_ABCDEFGH.xlsx"` has no recognizable date, yet
`extract_po_from_filename` treats the 8-character non-numeric second
segment as a match: it returns the non-empty identifier `"X"`, the
blindly formatted string `"ABCD-EF-GH"` (not the current date), and no
warning. -/
theorem extract_po_nonnumeric_segment_matches :
    extract_po_from_filename "X_ABCDEFGH.xlsx" = ⟨"X", "ABCD-EF-GH", false⟩ := by
  decide

/-- C2 (amended): when `extract_po_from_filename`'s split yields no second
segment of length exactly 8, it returns an empty identifier and an EMPTY
date (not the current date) with a warning; the length test ignores
whether the segment is numeric.  `grn.py`'s `extract_date_from_filename`
is the one that falls back to the current date: whenever the stripped
name contains no run of eight consecutive digits it returns `today` with
a warning.  Neither extractor can fail. -/
theorem extractors_no_date_pattern :
    (∀ fn : String,
      ((pySplit '_' (pyReplace ".xls".data (pyReplace ".xlsx".data fn.data))).getD 1 []).length ≠ 8 →
      extract_po_from_filename fn = ⟨"", "", true⟩) ∧
    (∀ today fn : String,
      (∀ i < (grnStripExt fn.data).length,
        ¬ (8 ≤ ((grnStripExt fn.data).drop i).length ∧
          (((grnStripExt fn.data).drop i).take 8).all Char.isDigit = true)) →
      extract_date_from_filename today fn = (today, true)) := by
  constructor
  · intro fn h
    unfold extract_po_from_filename
    rcases hs : pySplit '_' (pyReplace ".xls".data (pyReplace ".xlsx".data fn.data)) with
      _ | ⟨p0, _ | ⟨p1, rest⟩⟩
    · rfl
    · rfl
    · rw [hs] at h
      dsimp only
      rw [if_neg (by simpa using h)]
  · intro today fn h
    unfold extract_date_from_filename
    have hp : primaryDate (grnStripExt fn.data) = none := by
      cases hpd : primaryDate (grnStripExt fn.data) with
      | none => rfl
      | some d =>
        obtain ⟨i, hi, h8, hd⟩ := primaryDate_some_run hpd
        exact absurd ⟨h8, hd⟩ (h i hi)
    have hsc : scan8 (grnStripExt fn.data) = none := by
      cases hs : scan8 (grnStripExt fn.data) with
      | none => rfl
      | some d =>
        obtain ⟨i, hi, h8, hd⟩ := scan8_some_run hs
        exact absurd ⟨h8, hd⟩ (h i hi)
    rw [hp, hsc]

/-- C2 witness: a filename with no recognizable date pattern at all. -/
theorem extractors_no_date_pattern_witness :
    extract_po_from_filename "purchase order.xlsx" = ⟨"", "", true⟩ ∧
    extract_date_from_filename "2026-10-12" "purchase order.xlsx" = ("2026-10-12", true) :=
  ⟨extractors_no_date_pattern.1 "purchase order.xlsx" (by decide),
   extractors_no_date_pattern.2 "2026-10-12" "purchase order.xlsx" (by decide)⟩

/-- C3 counterexample: the validators compare against exact spellings
only, so the case variant `"naN"` — and `"none"` in any case — pass the
primary-key filter, contrary to the claimed case-insensitive matching. -/
theorem validator_accepts_naN :
    validRowApp appMapping [("Item Code", some "naN")] = true ∧
    validRowApp appMapping [("Item Code", some "none")] = true ∧
    validRowGrn "Item Code" [("Item Code", some "naN")] = true := by
  decide

/-- C3 (amended): a row passes `app.py`'s filter iff its mapped
primary-key cell is present, non-NaN, and its stripped value is not one
of the four exact tokens `''`, `'nan'`, `'NaN'`, `'NAN'` (case-sensitive);
`grn.py`'s filter likewise with the exact tokens `''`, `'nan'`.  The
surviving rows keep their original order (the filter yields a sublist). -/
theorem row_validator_characterization :
    ∀ (m : Mapping) (col : String) (t : List Row),
      ((t.filter (validRowApp m)).Sublist t) ∧
      (∀ r, r ∈ t.filter (validRowApp m) ↔
        r ∈ t ∧ ∃ s, rowGet? r (mget m "product_number") = some (some s) ∧
          pyStripS s ∉ (["", "nan", "NaN", "NAN"] : List String)) ∧
      ((t.filter (validRowGrn col)).Sublist t) ∧
      (∀ r, r ∈ t.filter (validRowGrn col) ↔
        r ∈ t ∧ ∃ s, rowGet? r col = some (some s) ∧
          pyStripS s ∉ (["", "nan"] : List String)) := by
  intro m col t
  refine ⟨List.filter_sublist t, ?_, List.filter_sublist t, ?_⟩
  · intro r
    rw [List.mem_filter, validRowApp_iff]
  · intro r
    rw [List.mem_filter, validRowGrn_iff]

/-- C7: the dedup gate returns exactly the sub-list of discovered files
whose name is not among the existing identifiers, preserving relative
order, and on existing `{f1.xlsx}` with discovered `[f1.xlsx, f2.xlsx]`
it returns `[f2.xlsx]`. -/
theorem dedup_gate_characterization :
    ∀ (existing : List String) (files : List DriveFile),
      ((dedupGate existing files).Sublist files) ∧
      (∀ f, f ∈ dedupGate existing files ↔ f ∈ files ∧ f.name ∉ existing) ∧
      dedupGate ["f1.xlsx"] [⟨"1", "f1.xlsx"⟩, ⟨"2", "f2.xlsx"⟩] = [⟨"2", "f2.xlsx"⟩] := by
  intro ex files
  refine ⟨List.filter_sublist files, ?_, by decide⟩
  intro f
  simp [dedupGate, List.mem_filter]

/-- Every required field mapped to a truthy header absent from the parsed
columns contributes that header to the missing-columns diagnostic. -/
theorem mem_missingColumnsFor {req : List String} {m : Mapping} {headers : List String}
    {f : String} (hf : f ∈ req) (h1 : mget m f ≠ "") (h2 : mget m f ∉ headers) :
    mget m f ∈ missingColumnsFor req m headers := by
  unfold missingColumnsFor
  exact List.mem_map_of_mem _ (List.mem_filter.mpr ⟨hf, by simp [h1, h2]⟩)

/-- C4: when some required logical field's mapped physical header is
absent from the table, both document processors return zero records,
and the missing-columns diagnostic names the mapped header of every
absent required field.  The embedding is total, so nothing escapes to
the batch caller. -/
theorem missing_required_columns_fatal :
    (∀ (fn : String) (m : Mapping) (headers : List String) (table : List Row),
      (∃ f ∈ requiredFieldsPO, mget m f ≠ "" ∧ mget m f ∉ headers) →
      (process_excel_file fn m headers table).records = [] ∧
      ∀ g ∈ requiredFieldsPO, mget m g ≠ "" → mget m g ∉ headers →
        mget m g ∈ (process_excel_file fn m headers table).missing_columns) ∧
    (∀ (today fn : String) (m : Mapping) (headers : List String) (table : List Row),
      (∃ f ∈ requiredFieldsGRN, mget m f ≠ "" ∧ mget m f ∉ headers) →
      (process_grn_excel_file today fn m headers table).records = [] ∧
      ∀ g ∈ requiredFieldsGRN, mget m g ≠ "" → mget m g ∉ headers →
        mget m g ∈ (process_grn_excel_file today fn m headers table).missing_columns) := by
  constructor
  · rintro fn m headers table ⟨f, hf, h1, h2⟩
    have hne : missingColumnsFor requiredFieldsPO m headers ≠ [] :=
      List.ne_nil_of_mem (mem_missingColumnsFor hf h1 h2)
    constructor
    · simp [process_excel_file, hne]
    · intro g hg hg1 hg2
      simpa [process_excel_file, hne] using mem_missingColumnsFor hg hg1 hg2
  · rintro today fn m headers table ⟨f, hf, h1, h2⟩
    have hne : missingColumnsFor requiredFieldsGRN m headers ≠ [] :=
      List.ne_nil_of_mem (mem_missingColumnsFor hf h1 h2)
    constructor
    · simp [process_grn_excel_file, hne]
    · intro g hg hg1 hg2
      simpa [process_grn_excel_file, hne] using mem_missingColumnsFor hg hg1 hg2

/-- C4 witness: documents lacking the `Item Code` column (PO) and the
`po_number` column (GRN). -/
theorem missing_required_columns_fatal_witness :
    (process_excel_file "f1.xlsx" appMapping ["Product Description"] []).records = [] ∧
    mget appMapping "product_number" ∈
      (process_excel_file "f1.xlsx" appMapping ["Product Description"] []).missing_columns ∧
    (process_grn_excel_file "2026-10-12" "g1.xlsx" grnMapping
      ["Item Code", "Product Description"] []).records = [] ∧
    mget grnMapping "po_number" ∈
      (process_grn_excel_file "2026-10-12" "g1.xlsx" grnMapping
        ["Item Code", "Product Description"] []).missing_columns :=
  ⟨(missing_required_columns_fatal.1 "f1.xlsx" appMapping ["Product Description"] []
      ⟨"product_number", by decide, by decide, by decide⟩).1,
   (missing_required_columns_fatal.1 "f1.xlsx" appMapping ["Product Description"] []
      ⟨"product_number", by decide, by decide, by decide⟩).2
      "product_number" (by decide) (by decide) (by decide),
   (missing_required_columns_fatal.2 "2026-10-12" "g1.xlsx" grnMapping
      ["Item Code", "Product Description"] []
      ⟨"po_number", by decide, by decide, by decide⟩).1,
   (missing_required_columns_fatal.2 "2026-10-12" "g1.xlsx" grnMapping
      ["Item Code", "Product Description"] []
      ⟨"po_number", by decide, by decide, by decide⟩).2
      "po_number" (by decide) (by decide) (by decide)⟩

/-- C8: when the required columns are present but no row survives the
primary-key filter, both processors return exactly an empty record list
with the no-valid-line-items warning and an empty missing-columns
diagnostic — a soft outcome, with no aggregate computed. -/
theorem zero_valid_rows_soft :
    (∀ (fn : String) (m : Mapping) (headers : List String) (table : List Row),
      missingColumnsFor requiredFieldsPO m headers = [] →
      (dropnaAll table).filter (validRowApp m) = [] →
      process_excel_file fn m headers table =
        ⟨[], [], ["No valid line items found in " ++ fn]⟩) ∧
    (∀ (today fn : String) (m : Mapping) (headers : List String) (table : List Row),
      missingColumnsFor requiredFieldsGRN m headers = [] →
      (replaceTokens (dropnaAll table)).filter (validRowGrn (mget m "item_code")) = [] →
      process_grn_excel_file today fn m headers table =
        ⟨[], [], ["No valid line items found in " ++ fn]⟩) := by
  constructor
  · intro fn m headers table h1 h2
    simp [process_excel_file, h1, h2]
  · intro today fn m headers table h1 h2
    simp [process_grn_excel_file, h1, h2]

/-- C8 witness: documents whose only rows fail the primary-key filter. -/
theorem zero_valid_rows_soft_witness :
    process_excel_file "f1.xlsx" appMapping ["Item Code", "Product Description"]
        [[("Item Code", some "nan"), ("Product Description", some "P")]] =
      ⟨[], [], ["No valid line items found in f1.xlsx"]⟩ ∧
    process_grn_excel_file "2026-10-12" "g1.xlsx" grnMapping
        ["Item Code", "po_number", "Product Description"]
        [[("Item Code", some " "), ("po_number", some "A"), ("Product Description", some "P")]] =
      ⟨[], [], ["No valid line items found in g1.xlsx"]⟩ :=
  ⟨zero_valid_rows_soft.1 "f1.xlsx" appMapping _ _ (by decide) (by decide),
   zero_valid_rows_soft.2 "2026-10-12" "g1.xlsx" grnMapping _ _ (by decide) (by decide)⟩

/-- C5: the single-group totals loop computes the sum of the per-row
contributions — each row contributing its parsed value, with anything
unparsable (or a missing cell or column) contributing `0` — and the
totals are invariant under any permutation of the valid rows.  Every
assembled record carries exactly these document-level sums. -/
theorem single_group_totals :
    (∀ (col : String) (l l' : List Row),
      l.Perm l' →
      sumCol col l = (l.map (fun r => numContribution r col)).sum ∧
      sumCol col l = sumCol col l' ∧
      (∀ (r : Row) (s : String), rowGet? r col = some (some s) → parseNum s = none →
        numContribution r col = 0)) ∧
    (∀ (fn : String) (m : Mapping) (headers : List String) (table : List Row),
      (process_excel_file fn m headers table).records.all (fun rec =>
        recGet rec "total_quantity_in_po" =
          some (.num (sumCol (mget m "quantity_ordered")
            ((dropnaAll table).filter (validRowApp m)))) ∧
        recGet rec "total_amount_of_po" =
          some (.num (sumCol (mget m "amount_per_line_amount")
            ((dropnaAll table).filter (validRowApp m))))) = true) := by
  constructor
  · intro col l l' hp
    refine ⟨sumCol_eq_sum col l, ?_, ?_⟩
    · rw [sumCol_eq_sum, sumCol_eq_sum]
      exact (hp.map _).sum_eq
    · intro r s hr hps
      simp [numContribution, hr, hps]
  · intro fn m headers table
    rcases em (missingColumnsFor requiredFieldsPO m headers = []) with hmc | hmc
    · rcases em ((dropnaAll table).filter (validRowApp m) = []) with hv | hv
      · simp [process_excel_file, hmc, hv]
      · rw [List.all_eq_true]
        intro rec hrec
        have hrecs : (process_excel_file fn m headers table).records =
            ((dropnaAll table).filter (validRowApp m)).map
              (buildPORecord fn (extract_po_from_filename fn) m
                ((dropnaAll table).filter (validRowApp m)).length
                (sumCol (mget m "quantity_ordered") ((dropnaAll table).filter (validRowApp m)))
                (sumCol (mget m "amount_per_line_amount")
                  ((dropnaAll table).filter (validRowApp m)))) := by
          simp [process_excel_file, hmc, hv]
        rw [hrecs] at hrec
        obtain ⟨r, hr, rfl⟩ := List.mem_map.mp hrec
        exact decide_eq_true ⟨rfl, rfl⟩
    · simp [process_excel_file, hmc]

/-- C5 witness: a two-row document summed in both orders, with one
unparsable quantity cell. -/
theorem single_group_totals_witness :
    sumCol "Quantity" [[("Quantity", some "2")], [("Quantity", some "abc")]] =
      ([[("Quantity", some "2")], [("Quantity", some "abc")]].map
        (fun r => numContribution r "Quantity")).sum ∧
    sumCol "Quantity" [[("Quantity", some "2")], [("Quantity", some "abc")]] =
      sumCol "Quantity" [[("Quantity", some "abc")], [("Quantity", some "2")]] :=
  ⟨(single_group_totals.1 "Quantity"
      [[("Quantity", some "2")], [("Quantity", some "abc")]]
      [[("Quantity", some "abc")], [("Quantity", some "2")]]
      (List.Perm.swap _ _ _)).1,
   (single_group_totals.1 "Quantity"
      [[("Quantity", some "2")], [("Quantity", some "abc")]]
      [[("Quantity", some "abc")], [("Quantity", some "2")]]
      (List.Perm.swap _ _ _)).2.1⟩

/-- The field names of a PO output record, in order. -/
def poFieldNames : List String :=
  ["po_number", "po_date", "product_number", "product_name", "quantity_ordered",
   "price_per_unit", "mrp", "base_price", "amount_per_line_amount",
   "total_items_in_po", "total_quantity_in_po", "total_amount_of_po", "source_file"]

/-- The PO output fields copied from the source row. -/
def rowSourcedPOFields : List String :=
  ["product_number", "product_name", "quantity_ordered", "price_per_unit",
   "mrp", "base_price", "amount_per_line_amount"]

/-- The GRN output fields copied from the source row under the same
logical name (the remaining row-sourced field, `grn_number`, is copied
from the `po_number` mapping and is treated separately). -/
def rowSourcedGRNFields : List String :=
  ["item_code", "product_upc", "product_description", "mrp", "tax_amount",
   "landing_rate_po", "landing_rate_grn", "quantity_po", "quantity_grn",
   "fill_rate", "total_grn_amount", "gmv_loss"]

theorem rowGet?_eq_none {r : Row} {col : String} (h : ∀ p ∈ r, p.1 ≠ col) :
    rowGet? r col = none := by
  unfold rowGet?
  have hf : r.find? (fun p => decide (p.1 = col)) = none :=
    List.find?_eq_none.mpr (fun p hp => by simp [h p hp])
  rw [hf]
  rfl

theorem getD_zero_mem {α : Type} (l : List α) (dflt : α) (h : l ≠ []) :
    l.getD 0 dflt ∈ l := by
  cases l with
  | nil => exact absurd rfl h
  | cons a t => simp [List.getD]

/-- C6 counterexample: when a field's mapped column IS among the headers
but the cell holds no value (pandas NaN), both record builders render
that field as the string `"nan"` (Python `str(nan)`), not as the empty
string. -/
theorem output_field_nan_for_missing_cell :
    (process_excel_file "123_20260211_030533.xlsx" appMapping
        ["Item Code", "Product Description", "MRP"]
        [[("Item Code", some "I1"), ("Product Description", some "P"),
          ("MRP", none)]]).records.map (fun rec => recGet rec "mrp") =
      [some (.str "nan")] ∧
    (process_grn_excel_file "2026-10-12" "Consolidated-GRN-Report_20260211_030533.xlsx"
        grnMapping ["Item Code", "po_number", "Product Description", "MRP"]
        [[("Item Code", some "I1"), ("po_number", some "A"),
          ("Product Description", some "P"),
          ("MRP", none)]]).records.map (fun rec => recGet rec "mrp") =
      [some (.str "nan")] := by
  decide

/-- C6 (amended): every assembled PO record has exactly the fixed field
list `poFieldNames` and every assembled GRN record exactly
`grnFieldNames`, and in both builders every row-sourced schema field
whose mapped column is absent from the table's headers renders as the
empty string.  (A present column whose cell is NaN instead renders as
`"nan"`.) -/
theorem output_schema_stable :
    (∀ (fn : String) (m : Mapping) (headers : List String) (table : List Row),
      (∀ r ∈ table, r.map Prod.fst = headers) →
      ∀ rec ∈ (process_excel_file fn m headers table).records,
        rec.map Prod.fst = poFieldNames ∧
        ∀ f ∈ rowSourcedPOFields, mget m f ∉ headers →
          recGet rec f = some (.str "")) ∧
    (∀ (today fn : String) (m : Mapping) (headers : List String) (table : List Row),
      (∀ r ∈ table, r.map Prod.fst = headers) →
      ∀ rec ∈ (process_grn_excel_file today fn m headers table).records,
        rec.map Prod.fst = grnFieldNames ∧
        (∀ f ∈ rowSourcedGRNFields, mget m f ∉ headers →
          recGet rec f = some (.str "")) ∧
        (mget m "po_number" ∉ headers →
          recGet rec "grn_number" = some (.str ""))) := by
  constructor
  · intro fn m headers table hwf rec hrec
    rcases em (missingColumnsFor requiredFieldsPO m headers = []) with hmc | hmc
    · rcases em ((dropnaAll table).filter (validRowApp m) = []) with hv | hv
      · simp [process_excel_file, hmc, hv] at hrec
      · have hrecs : (process_excel_file fn m headers table).records =
            ((dropnaAll table).filter (validRowApp m)).map
              (buildPORecord fn (extract_po_from_filename fn) m
                ((dropnaAll table).filter (validRowApp m)).length
                (sumCol (mget m "quantity_ordered") ((dropnaAll table).filter (validRowApp m)))
                (sumCol (mget m "amount_per_line_amount")
                  ((dropnaAll table).filter (validRowApp m)))) := by
          simp [process_excel_file, hmc, hv]
        rw [hrecs] at hrec
        obtain ⟨r, hr, rfl⟩ := List.mem_map.mp hrec
        have hrt : r ∈ table := by
          have h1 := (List.mem_filter.mp hr).1
          unfold dropnaAll at h1
          exact (List.mem_filter.mp h1).1
        refine ⟨rfl, ?_⟩
        intro f hf hnin
        have hnone : rowGet? r (mget m f) = none := by
          apply rowGet?_eq_none
          intro p hp
          have hph : p.1 ∈ headers := by
            rw [← hwf r hrt]
            exact List.mem_map_of_mem _ hp
          exact fun hpc => hnin (hpc ▸ hph)
        have htf : trimmedField r (mget m f) = "" := by
          unfold trimmedField cellStrD
          rw [hnone]
          rfl
        fin_cases hf <;> exact congrArg (fun s => some (FieldVal.str s)) htf
    · simp [process_excel_file, hmc] at hrec
  · intro today fn m headers table hwf rec hrec
    rcases em (missingColumnsFor requiredFieldsGRN m headers = []) with hmc | hmc
    · rcases em ((replaceTokens (dropnaAll table)).filter
          (validRowGrn (mget m "item_code")) = []) with hv | hv
      · simp [process_grn_excel_file, hmc, hv] at hrec
      · have hrecs : (process_grn_excel_file today fn m headers table).records =
            ((replaceTokens (dropnaAll table)).filter (validRowGrn (mget m "item_code"))).map
              (buildGRNRecord fn (extract_date_from_filename today fn).1 m) := by
          simp [process_grn_excel_file, hmc, hv]
        rw [hrecs] at hrec
        obtain ⟨r, hr, rfl⟩ := List.mem_map.mp hrec
        have hkeys : r.map Prod.fst = headers := by
          have h1 := (List.mem_filter.mp hr).1
          unfold replaceTokens at h1
          obtain ⟨r0, hr0, rfl⟩ := List.mem_map.mp h1
          have hr0t : r0 ∈ table := by
            unfold dropnaAll at hr0
            exact (List.mem_filter.mp hr0).1
          rw [List.map_map]
          exact hwf r0 hr0t
        have hfield : ∀ g : String, mget m g ∉ headers →
            trimmedField r (mget m g) = "" := by
          intro g hnin
          have hnone : rowGet? r (mget m g) = none := by
            apply rowGet?_eq_none
            intro p hp
            have hph : p.1 ∈ headers := by
              rw [← hkeys]
              exact List.mem_map_of_mem _ hp
            exact fun hpc => hnin (hpc ▸ hph)
          unfold trimmedField cellStrD
          rw [hnone]
          rfl
        refine ⟨rfl, ?_, ?_⟩
        · intro f hf hnin
          have htf := hfield f hnin
          fin_cases hf <;> exact congrArg (fun s => some (FieldVal.str s)) htf
        · intro hnin
          exact congrArg (fun s => some (FieldVal.str s)) (hfield "po_number" hnin)
    · simp [process_grn_excel_file, hmc] at hrec

/-- C6 witness: the `MRP` column is absent from both documents entirely,
so each builder's `mrp` field is the empty string. -/
theorem output_schema_stable_witness :
    recGet ((process_excel_file "f1.xlsx" appMapping ["Item Code", "Product Description"]
        [[("Item Code", some "I1"), ("Product Description", some "P")]]).records.getD 0 [])
      "mrp" = some (.str "") ∧
    recGet ((process_grn_excel_file "2026-10-12" "g1.xlsx" grnMapping
        ["Item Code", "po_number", "Product Description"]
        [[("Item Code", some "I1"), ("po_number", some "A"),
          ("Product Description", some "P")]]).records.getD 0 [])
      "mrp" = some (.str "") :=
  ⟨(output_schema_stable.1 "f1.xlsx" appMapping ["Item Code", "Product Description"]
      [[("Item Code", some "I1"), ("Product Description", some "P")]]
      (by decide) _ (getD_zero_mem _ _ (by decide))).2 "mrp" (by decide) (by decide),
   (output_schema_stable.2 "2026-10-12" "g1.xlsx" grnMapping
      ["Item Code", "po_number", "Product Description"]
      [[("Item Code", some "I1"), ("po_number", some "A"),
        ("Product Description", some "P")]]
      (by decide) _ (getD_zero_mem _ _ (by decide))).2.1 "mrp" (by decide) (by decide)⟩

/-- C9: for every filename of the shape `{ID}_{YYYYMMDD}_{HHMMSS}.{ext}`
(identifier free of `'_'` and `'.'`, eight date digits, six time digits),
`extract_po_from_filename` returns the first segment as the identifier
and the date segment reformatted as `YYYY-MM-DD`, with no warning. -/
theorem extract_po_pattern_match :
    ∀ (fn : String) (po d tm ext : List Char),
      fn.data = po ++ '_' :: (d ++ '_' :: (tm ++ '.' :: ext)) →
      '_' ∉ po → '.' ∉ po →
      d.length = 8 → (∀ c ∈ d, c.isDigit) →
      tm.length = 6 → (∀ c ∈ tm, c.isDigit) →
      extract_po_from_filename fn = ⟨String.mk po, String.mk (fmtDate d), false⟩ := by
  intro fn po d tm ext hfn hpo1 hpo2 hd8 hdd ht6 htd
  have hnodot : ∀ c ∈ po ++ '_' :: (d ++ '_' :: tm), c ≠ '.' := by
    intro c hc
    simp only [List.mem_append, List.mem_cons] at hc
    rcases hc with h | h | h | h | h
    · exact fun he => hpo2 (he ▸ h)
    · subst h; decide
    · exact digit_ne_dot (hdd c h)
    · subst h; decide
    · exact digit_ne_dot (htd c h)
  have hstep1 : pyReplace ".xlsx".data fn.data =
      (po ++ '_' :: (d ++ '_' :: tm)) ++ pyReplace ".xlsx".data ('.' :: ext) := by
    rw [hfn]
    rw [show po ++ '_' :: (d ++ '_' :: (tm ++ '.' :: ext)) =
      (po ++ '_' :: (d ++ '_' :: tm)) ++ ('.' :: ext) by simp]
    exact pyReplace_append _ _ _ (by decide) hnodot
  have hstep2 : pyReplace ".xls".data (pyReplace ".xlsx".data fn.data) =
      (po ++ '_' :: (d ++ '_' :: tm)) ++
        pyReplace ".xls".data (pyReplace ".xlsx".data ('.' :: ext)) := by
    rw [hstep1]
    exact pyReplace_append _ _ _ (by decide) hnodot
  have hdu : '_' ∉ d := fun h => absurd (hdd '_' h) (by decide)
  have hsplit : pySplit '_' (pyReplace ".xls".data (pyReplace ".xlsx".data fn.data)) =
      po :: d :: pySplit '_'
        (tm ++ pyReplace ".xls".data (pyReplace ".xlsx".data ('.' :: ext))) := by
    rw [hstep2]
    rw [show (po ++ '_' :: (d ++ '_' :: tm)) ++
        pyReplace ".xls".data (pyReplace ".xlsx".data ('.' :: ext)) =
      po ++ '_' :: (d ++ '_' ::
        (tm ++ pyReplace ".xls".data (pyReplace ".xlsx".data ('.' :: ext)))) by simp]
    rw [pySplit_append '_' po _ hpo1]
    rw [pySplit_append '_' d _ hdu]
  unfold extract_po_from_filename
  rw [hsplit]
  dsimp only
  rw [if_pos hd8]

/-- C9 witness: the spec's example filename. -/
theorem extract_po_pattern_match_witness :
    extract_po_from_filename "5630310004451_20260211_030533.xlsx" =
      ⟨"5630310004451", "2026-02-11", false⟩ :=
  (extract_po_pattern_match "5630310004451_20260211_030533.xlsx"
    "5630310004451".data "20260211".data "030533".data "xlsx".data
    (by decide) (by decide) (by decide) (by decide) (by decide)
    (by decide) (by decide)).trans (by decide)

/-- C10 counterexample: a GRN row whose description cell is `" nan "`
(padding defeats the whole-cell replacement) produces an output record
whose `product_description` field is exactly the token `"nan"`, so output
fields CAN carry the supposedly eliminated tokens. -/
theorem grn_output_field_can_be_nan :
    recGet ((process_grn_excel_file "2026-10-12" "Consolidated-GRN-Report_20260211_030533.xlsx"
        grnMapping grnHeadersAAB
        [[("Item Code", some "I1"), ("po_number", some "A"),
          ("Product Description", some " nan ")]]).records.getD 0 [])
      "product_description" = some (.str "nan") := by
  decide

/-- C10 (amended): the pre-validation replacement blanks exactly the
whole-cell, case-sensitive tokens `'nan'`, `'NaN'`, `'None'` — `'NAN'`,
`'none'`, padded variants and NaN cells are untouched — and output fields
can nevertheless equal those tokens: an empty (NaN) cell in a present
column renders as the string `"nan"` via `str()`. -/
theorem grn_token_replacement_characterization :
    replaceCell (some "nan") = some "" ∧
    replaceCell (some "NaN") = some "" ∧
    replaceCell (some "None") = some "" ∧
    replaceCell (some "NAN") = some "NAN" ∧
    replaceCell (some "none") = some "none" ∧
    replaceCell (some " nan ") = some " nan " ∧
    replaceCell none = none ∧
    recGet ((process_grn_excel_file "2026-10-12" "Consolidated-GRN-Report_20260211_030533.xlsx"
        grnMapping grnHeadersAAB
        [[("Item Code", some "I1"), ("po_number", some "A"),
          ("Product Description", none)]]).records.getD 0 [])
      "product_description" = some (.str "nan") := by
  decide

end Blinkit
